import Mathlib

/-!
Verification development for the libgroove playback engine
(src/grooveplayer/player.c).

The definitions below are a shallow embedding of the playback engine:
the real-time audio output callback (`audio_callback`, lines 191-302),
the sink purge/flush notifications (lines 304-349), the device watchdog
thread (`device_thread_run`, lines 133-166), and the attach/detach
lifecycle (lines 497-608).  Machine state that lives in
`struct GroovePlayerPrivate` is modelled by the structure `GPState`;
pointer-valued fields become `Option` values, with playlist items and
heap buffers identified by natural-number ids standing for pointer
identity.  The `double` fields (`play_pos`, buffer positions, stream
buffer duration) are modelled as rationals.  Effects that the C code
performs against the sound backend (writing sample data or silence,
emitting events, signalling the watchdog condition variable) are
recorded as an explicit action trace.
-/

namespace GroovePlayer

/-- Sample formats, from `enum GrooveSampleFormat` (groove.h): five sample
widths, each in interleaved or planar variants, plus the `NONE` marker. -/
inductive GrooveSampleFormat where
  | fmt_none
  | u8 | u8p
  | s16 | s16p
  | s32 | s32p
  | flt | fltp
  | dbl | dblp
deriving DecidableEq, Repr

/-- Embeds `is_planar` (player.c lines 168-179): the planar sample formats. -/
def is_planar : GrooveSampleFormat → Bool
  | .u8p | .s16p | .s32p | .fltp | .dblp => true
  | _ => false

/-- Audio format triple, from `struct GrooveAudioFormat` (groove.h). -/
structure GrooveAudioFormat where
  sample_rate : Nat
  channel_layout : Nat
  sample_fmt : GrooveSampleFormat
deriving DecidableEq, Repr

/-- Modelled from the spec: `groove_audio_formats_equal` lives in the groove
core, not under src/; the spec states two formats are equal iff all three
fields match. -/
def groove_audio_formats_equal (a b : GrooveAudioFormat) : Bool :=
  decide (a = b)

/-- A decoded audio buffer, from `struct GrooveBuffer` (groove.h).  `id`
models the pointer identity of the heap allocation; `item` models the
`struct GroovePlaylistItem *` owning the buffer; `pos` is the buffer's
starting position in seconds. -/
structure GrooveBuffer where
  id : Nat
  format : GrooveAudioFormat
  frame_count : Nat
  pos : Rat
  item : Nat
deriving DecidableEq, Repr

/-- The fields of the open `SoundIoOutStream` that the engine reads:
its sample rate and its buffer duration in seconds. -/
structure OutStream where
  sample_rate : Nat
  buffer_duration : Rat
deriving DecidableEq, Repr

/-- Player events, from `enum GroovePlayerEventType` (player.h). -/
inductive GroovePlayerEvent where
  | nowplaying
  | bufferunderrun
  | devicereopened
  | devicereopen_error
deriving DecidableEq, Repr

/-- Observable effects of one execution of engine code: an event pushed on
the event queue, silence frames or sample data written to the backend
stream, and the `pthread_cond_signal` waking the device watchdog.  A
`writeData` action records which frames of which buffer were committed:
`writeData bid start n` copies frames `start, ..., start+n-1` of the buffer
whose id is `bid`. -/
inductive CbAction where
  | evt (e : GroovePlayerEvent)
  | writeSilence (n : Nat)
  | writeData (bid : Nat) (start : Nat) (n : Nat)
  | signalReopen
deriving DecidableEq, Repr

/-- The mutable fields of `struct GroovePlayerPrivate` that the modelled
operations read or write.  `play_head`/`playlist`/`sink_playlist` hold
playlist-item and playlist ids standing for pointers (`none` = NULL). -/
structure GPState where
  audio_buf : Option GrooveBuffer
  audio_buf_size : Nat
  audio_buf_index : Nat
  play_head : Option Nat
  play_pos : Rat
  outstream : Option OutStream
  eventq_aborted : Bool
  abort_request : Bool
  device_thread_inited : Bool
  silence_frames_left : Int
  request_device_reopen : Bool
  device_format : GrooveAudioFormat
  sink_playlist : Option Nat
  playlist : Option Nat
  dummy_device : Bool
  dummy_soundio : Bool
deriving DecidableEq, Repr

/-- One result of `groove_sink_buffer_get`: a fresh buffer or end of
stream. -/
inductive PullResult where
  | bufEnd
  | bufYes (b : GrooveBuffer)
deriving DecidableEq, Repr

/-- Modelled from the spec: `groove_sink_buffer_get` belongs to the groove
core sink, which is not under src/.  The spec describes it as
`pull_next_buffer(blocking) -> {Buffer, EndOfStream}`; on end of stream the
out-parameter is left NULL.  The pending source results are a list; an
exhausted list keeps reporting end of stream. -/
def sink_buffer_get : List PullResult → PullResult × List PullResult
  | [] => (.bufEnd, [])
  | r :: rs => (r, rs)

/-- Embeds line 243 of player.c: the number of silence frames armed on a
format transition, `outstream->buffer_duration * outstream->sample_rate`,
computed from the currently open stream (C truncates the nonnegative
double product to int, which is the floor). -/
def deviceBufferFrames (os : OutStream) : Int :=
  (os.buffer_duration * (os.sample_rate : Rat)).floor

/-- Result of the buffer-refill block of the callback: updated state,
remaining source, emitted actions, and the local `waiting_for_silence`
flag as it stands after the block. -/
structure RefillOut where
  s : GPState
  src : List PullResult
  tr : List CbAction
  waiting : Bool
deriving DecidableEq, Repr

/-- Embeds lines 217-246 of `audio_callback`: release the exhausted
buffer, pull the next one; on end of stream clear the play head and emit
`NOWPLAYING`; on success emit `NOWPLAYING` if the item changed, publish
`play_head`/`play_pos` from the buffer, and when the watchdog is running
and the new buffer's format differs from the device format, arm the
silence drain from the currently open stream's geometry. -/
def cb_refill (os : OutStream) (s : GPState) (src : List PullResult) : RefillOut :=
  match sink_buffer_get src with
  | (.bufEnd, src') =>
      { s := { s with audio_buf := none, audio_buf_index := 0, audio_buf_size := 0,
                      play_head := none, play_pos := -1 },
        src := src',
        tr := [CbAction.evt .nowplaying],
        waiting := false }
  | (.bufYes b, src') =>
      let tr := if s.play_head = some b.item then [] else [CbAction.evt .nowplaying]
      let s1 := { s with audio_buf := some b, audio_buf_index := 0,
                         audio_buf_size := b.frame_count,
                         play_head := some b.item, play_pos := b.pos }
      if s.device_thread_inited && !(groove_audio_formats_equal b.format s.device_format) then
        { s := { s1 with silence_frames_left := deviceBufferFrames os },
          src := src', tr := tr, waiting := true }
      else
        { s := s1, src := src', tr := tr, waiting := false }

/-- Guard of the refill block, line 214-215 of player.c:
`!request_device_reopen && !waiting_for_silence && !paused &&
audio_buf_index >= audio_buf_size`. -/
def refillCond (s : GPState) (paused : Bool) : Bool :=
  !s.request_device_reopen && !(decide (0 < s.silence_frames_left)) && !paused &&
    decide (s.audio_buf_size ≤ s.audio_buf_index)

/-- Outcome of one iteration of the callback's write loop: `stop` models
reaching a `break`, `cont` models falling through to the next iteration
with the remaining requested frame count. -/
inductive IterRes where
  | stop (s : GPState) (src : List PullResult) (tr : List CbAction)
  | cont (s : GPState) (src : List PullResult) (tr : List CbAction) (req : Nat)
deriving DecidableEq, Repr

/-- Embeds lines 248-298 of `audio_callback`: after the refill block,
either the silence branch (device reopen pending, draining silence,
paused, or no buffer: fill the whole granted slot with zeroes, decrement
the drain counter and signal the watchdog when it runs out, then break) or
the copy branch (copy `min(frames left in buffer, granted)` frames,
advance the cursor and the play position, and continue while frames remain
requested). -/
def cb_stage2 (os : OutStream) (paused : Bool) (wfc req : Nat)
    (s1 : GPState) (src1 : List PullResult) (tr1 : List CbAction)
    (waiting : Bool) : IterRes :=
  if s1.request_device_reopen || waiting || paused || s1.audio_buf.isNone then
    if waiting then
      let sl := s1.silence_frames_left - (wfc : Int)
      if sl ≤ 0 then
        .stop { s1 with silence_frames_left := sl, request_device_reopen := true }
          src1 (tr1 ++ [CbAction.writeSilence wfc, CbAction.signalReopen])
      else
        .stop { s1 with silence_frames_left := sl } src1
          (tr1 ++ [CbAction.writeSilence wfc])
    else
      .stop s1 src1 (tr1 ++ [CbAction.writeSilence wfc])
  else
    match s1.audio_buf with
    | some b =>
        let rfc := s1.audio_buf_size - s1.audio_buf_index
        let fc := min rfc wfc
        let s2 := { s1 with audio_buf_index := s1.audio_buf_index + fc,
                            play_pos := s1.play_pos + (fc : Rat) / (os.sample_rate : Rat) }
        let tr2 := tr1 ++ [CbAction.writeData b.id s1.audio_buf_index fc]
        let req' := req - fc
        if req' = 0 then .stop s2 src1 tr2 else .cont s2 src1 tr2 req'
    | none => .stop s1 src1 tr1

/-- One iteration of the `for (;;)` loop of `audio_callback` (lines
202-298) given the frame count `g` granted by
`soundio_outstream_begin_write` for this iteration (the backend may grant
at most the remaining requested count, and a zero grant ends the loop). -/
def cb_iter (os : OutStream) (paused : Bool) (g req : Nat)
    (s : GPState) (src : List PullResult) : IterRes :=
  let wfc := min g req
  if wfc = 0 then .stop s src []
  else if refillCond s paused then
    let r := cb_refill os s src
    cb_stage2 os paused wfc req r.s r.src r.tr r.waiting
  else
    cb_stage2 os paused wfc req s src [] (decide (0 < s.silence_frames_left))

/-- Result of a whole callback invocation: final state, remaining source,
action trace, and whether the C loop exited by itself (`done = true`) as
opposed to the modelled grant sequence running dry while the loop wanted
to keep going (`done = false`). -/
structure CbOut where
  s : GPState
  src : List PullResult
  tr : List CbAction
  done : Bool
deriving DecidableEq, Repr

/-- The write loop of `audio_callback` over a list of backend grant sizes,
one per call to `soundio_outstream_begin_write`. -/
def cb_loop (os : OutStream) (paused : Bool) :
    List Nat → Nat → GPState → List PullResult → CbOut
  | [], _, s, src => { s := s, src := src, tr := [], done := false }
  | g :: gs, req, s, src =>
      match cb_iter os paused g req s src with
      | .stop s' src' tr => { s := s', src := src', tr := tr, done := true }
      | .cont s' src' tr req' =>
          let r := cb_loop os paused gs req' s' src'
          { s := r.s, src := r.src, tr := tr ++ r.tr, done := r.done }

/-- Embeds `audio_callback` (lines 191-302): one invocation by the backend
with a total requested frame count, `paused` sampled once from
`groove_playlist_playing`, and the backend's grant decisions given as a
list. -/
def audio_callback (os : OutStream) (paused : Bool) (grants : List Nat)
    (requested : Nat) (s : GPState) (src : List PullResult) : CbOut :=
  cb_loop os paused grants requested s src

/-- One backend callback invocation as scheduled by the environment:
its pause flag, grant sequence and total requested frames. -/
structure Invocation where
  paused : Bool
  grants : List Nat
  requested : Nat
deriving DecidableEq, Repr

/-- A sequence of callback invocations against the same open stream,
threading state and source and concatenating the action traces. -/
def player_run (os : OutStream) :
    List Invocation → GPState → List PullResult → CbOut
  | [], s, src => { s := s, src := src, tr := [], done := true }
  | iv :: ivs, s, src =>
      let r1 := audio_callback os iv.paused iv.grants iv.requested s src
      let r2 := player_run os ivs r1.s r1.src
      { s := r2.s, src := r2.src, tr := r1.tr ++ r2.tr, done := r2.done }

/-- Embeds `sink_purge` (lines 304-320): when the purged item is the one
the play head tracks, clear the play head, release the current buffer and
emit `NOWPLAYING`; otherwise do nothing. -/
def sink_purge (s : GPState) (item : Nat) : GPState × List CbAction :=
  if s.play_head = some item then
    ({ s with play_head := none, play_pos := -1, audio_buf := none,
              audio_buf_index := 0, audio_buf_size := 0 },
     [CbAction.evt .nowplaying])
  else (s, [])

/-- Embeds `sink_flush` (lines 336-349): drop the current buffer and clear
the play head. -/
def sink_flush (s : GPState) : GPState :=
  { s with audio_buf := none, audio_buf_index := 0, audio_buf_size := 0,
           play_pos := -1, play_head := none }

/-- Embeds `groove_player_detach` (lines 573-608).  The returned triple is
the updated state, whether the call performed the blocking
`pthread_join` on the watchdog thread, and the C return value.  Stream
close, dummy-device teardown and buffer release are unconditional but
no-ops on NULL handles; `groove_sink_detach` runs only when the sink is
attached.  Note that `play_head` and `play_pos` are not touched. -/
def groove_player_detach (s : GPState) : GPState × Bool × Int :=
  let joined := s.device_thread_inited
  let s := { s with abort_request := true }
  let s := if s.device_thread_inited then { s with device_thread_inited := false } else s
  let s := { s with eventq_aborted := true }
  let s := if (s.sink_playlist).isSome then { s with sink_playlist := none } else s
  let s := { s with outstream := none }
  let s := { s with dummy_device := false, dummy_soundio := false }
  let s := { s with playlist := none }
  let s := { s with audio_buf := none }
  let s := { s with request_device_reopen := false, silence_frames_left := 0,
                    abort_request := false }
  (s, joined, 0)

/-- Embeds the success path of `groove_player_attach` (lines 497-571) as
its effect on the modelled state: the device is opened (`outstream`
populated), the watchdog thread is spawned exactly when exact-format mode
is requested, the sink is attached, `play_pos` is reset to -1 (line 560;
note `play_head` is not written anywhere in attach), and the event queue
is reset.  `device_format` is not written by attach. -/
def groove_player_attach (os : OutStream) (use_exact : Bool) (pl : Nat)
    (s : GPState) : GPState × Int :=
  let s := { s with outstream := some os,
                    device_thread_inited := use_exact,
                    sink_playlist := some pl,
                    playlist := some pl,
                    play_pos := -1,
                    eventq_aborted := false }
  (s, 0)

/-! The device watchdog thread.  For claim C6 the relevant facts are which
program actions of `device_thread_run` (lines 133-166) execute while
`play_head_mutex` is held, so the reopen iteration is embedded as the
literal sequence of its steps and the mutex status is computed by
replaying the lock and unlock instructions. -/

/-- The individual actions of the watchdog loop body. -/
inductive DevThreadStep where
  | lockMutex
  | checkReopenFlag
  | clearReopenFlag
  | closeDevice
  | setDeviceFormat
  | openDevice
  | unlockMutex
  | startStream
  | emitReopened
  | emitReopenError
deriving DecidableEq, Repr

/-- Embeds one reopen iteration of `device_thread_run` (lines 141-162) as
its action sequence: lock (141), find the flag set (142), clear it (148),
close the device (150), record the new device format (152), attempt the
open (154), then on failure unlock (155) and emit
`DEVICE_REOPEN_ERROR` (156), or on success unlock (158), start the
stream (160) and emit `DEVICEREOPENED` (161). -/
def device_thread_reopen_trace (openOk : Bool) : List DevThreadStep :=
  [.lockMutex, .checkReopenFlag, .clearReopenFlag, .closeDevice,
   .setDeviceFormat, .openDevice] ++
  (if openOk then [.unlockMutex, .startStream, .emitReopened]
   else [.unlockMutex, .emitReopenError])

/-- Pairs every step of a watchdog trace with whether the mutex is held
while that step executes, replaying lock/unlock (for the lock and unlock
instructions themselves the status before the instruction is recorded). -/
def stepsWithMutex : Bool → List DevThreadStep → List (DevThreadStep × Bool)
  | _, [] => []
  | held, st :: rest =>
      let after := if st = .lockMutex then true
                   else if st = .unlockMutex then false
                   else held
      (st, held) :: stepsWithMutex after rest

/-- The list of mutex-held statuses at the occurrences of a given step in
a watchdog trace (empty when the step does not occur). -/
def mutexStatus (tr : List DevThreadStep) (st : DevThreadStep) : List Bool :=
  (stepsWithMutex false tr).filterMap
    (fun p => if p.1 = st then some p.2 else none)

/-! Trace counters used to state the claims about the callback's write
behaviour. -/

/-- Number of watchdog wakeup signals in a trace. -/
def countSignals (tr : List CbAction) : Nat :=
  (tr.filter (fun a => a = CbAction.signalReopen)).length

/-- Total silence frames written in a trace. -/
def silenceTotal : List CbAction → Nat
  | [] => 0
  | .writeSilence n :: rest => n + silenceTotal rest
  | _ :: rest => silenceTotal rest

/-- Silence frames written up to (and including the write committed
together with) the first watchdog signal; when no signal occurs this is
the total. -/
def silenceUpto : List CbAction → Nat
  | [] => 0
  | .signalReopen :: _ => 0
  | .writeSilence n :: rest => n + silenceUpto rest
  | _ :: rest => silenceUpto rest

/-- Total sample-data frames written in a trace. -/
def dataTotal : List CbAction → Nat
  | [] => 0
  | .writeData _ _ n :: rest => n + dataTotal rest
  | _ :: rest => dataTotal rest

/-- The (start, length) pairs of the data writes sourced from the buffer
with id `bid`, in trace order. -/
def dataWritesFor (bid : Nat) : List CbAction → List (Nat × Nat)
  | [] => []
  | .writeData b st n :: rest =>
      if b = bid then (st, n) :: dataWritesFor bid rest else dataWritesFor bid rest
  | _ :: rest => dataWritesFor bid rest

/-- Sum of the lengths of a list of writes. -/
def sumLens (ws : List (Nat × Nat)) : Nat := (ws.map Prod.snd).sum

/-- Holds when a list of (start, length) writes tiles the region starting
at `i` contiguously: each write starts exactly where the previous one
ended, so no frame is duplicated and none is skipped. -/
def chainFrom : Nat → List (Nat × Nat) → Bool
  | _, [] => true
  | i, (st, n) :: rest => decide (st = i) && chainFrom (i + n) rest

/-- The state holds buffer `b` with consumed cursor `j` and is in steady
playback: no reopen pending and no silence drain armed. -/
def holdsBuf (s : GPState) (b : GrooveBuffer) (j : Nat) : Prop :=
  s.audio_buf = some b ∧ s.audio_buf_size = b.frame_count ∧
  s.audio_buf_index = j ∧ s.silence_frames_left ≤ 0 ∧
  s.request_device_reopen = false

/-- The state no longer holds any buffer with id `bid`. -/
def bufGone (s : GPState) (bid : Nat) : Prop :=
  ∀ b', s.audio_buf = some b' → b'.id ≠ bid

/-- No pending source result carries a buffer with id `bid` (pointer
freshness of a buffer relative to the remaining source). -/
def idFresh (bid : Nat) (src : List PullResult) : Prop :=
  ∀ b, PullResult.bufYes b ∈ src → b.id ≠ bid

/-! System-level interleaving of the callback thread and the watchdog
thread, for the device-reopen-failure claim.  Because the watchdog holds
`play_head_mutex` from the flag clear through the end of
`open_audio_device` and the callback holds it for its whole invocation,
the two bodies are modelled as atomic steps.  The backend invokes the
write callback only on an open stream, so callback steps require
`outstream` to be populated; the watchdog reopen body requires the reopen
flag (set only by the callback's silence drain) and reads the pending
buffer's format (line 152). -/

/-- One atomic step of the two-thread system, labelled by the actions it
performs. -/
inductive SysStep : GPState → List PullResult → List CbAction →
    GPState → List PullResult → Prop where
  | callback (os : OutStream) (paused : Bool) (grants : List Nat) (req : Nat)
      (s : GPState) (src : List PullResult)
      (hopen : s.outstream = some os) :
      SysStep s src (audio_callback os paused grants req s src).tr
        (audio_callback os paused grants req s src).s
        (audio_callback os paused grants req s src).src
  | reopenOk (s : GPState) (src : List PullResult) (b : GrooveBuffer)
      (os' : OutStream)
      (hreq : s.request_device_reopen = true) (hbuf : s.audio_buf = some b) :
      SysStep s src [CbAction.evt .devicereopened]
        { s with request_device_reopen := false, device_format := b.format,
                 outstream := some os' } src
  | reopenFail (s : GPState) (src : List PullResult) (b : GrooveBuffer)
      (hreq : s.request_device_reopen = true) (hbuf : s.audio_buf = some b) :
      SysStep s src [CbAction.evt .devicereopen_error]
        { s with request_device_reopen := false, device_format := b.format,
                 outstream := none } src

/-- A finite interleaved execution, collecting each step's actions. -/
inductive SysTrace : GPState → List PullResult → List (List CbAction) →
    GPState → List PullResult → Prop where
  | nil (s : GPState) (src : List PullResult) : SysTrace s src [] s src
  | cons {s src acts s1 src1 trs s2 src2}
      (hstep : SysStep s src acts s1 src1)
      (hrest : SysTrace s1 src1 trs s2 src2) :
      SysTrace s src (acts :: trs) s2 src2

/-- True when an action is a sample-data write. -/
def CbAction.isData : CbAction → Bool
  | .writeData _ _ _ => true
  | _ => false

/-- No step of the execution writes sample data. -/
def noDataWrites (trs : List (List CbAction)) : Bool :=
  trs.all (fun acts => acts.all (fun a => !a.isData))

/-- No step of the execution emits the successful-reopen event. -/
def noReopenedEvt (trs : List (List CbAction)) : Bool :=
  trs.all (fun acts => acts.all (fun a => a ≠ CbAction.evt .devicereopened))

/-! Concrete data for the scenario claims. -/

/-- The target format of the playback scenario: 44100 Hz, stereo
(`GROOVE_CH_LAYOUT_STEREO` = front left | front right = 0x3), signed
16-bit interleaved. -/
def fmt_44100_stereo_s16 : GrooveAudioFormat :=
  { sample_rate := 44100, channel_layout := 3, sample_fmt := .s16 }

/-- The open stream of the scenario: 44100 Hz with a 0.1 s backend
buffer. -/
def scenario_outstream : OutStream :=
  { sample_rate := 44100, buffer_duration := 1/10 }

/-- The single source buffer of the scenario: 1024 frames of playlist
item 7, starting at position 0, in the device format. -/
def scenario_buffer : GrooveBuffer :=
  { id := 1, format := fmt_44100_stereo_s16, frame_count := 1024,
    pos := 0, item := 7 }

/-- The player state right after a successful attach in the default
(non-exact-format) mode: no buffer yet, cursor zeroed by `av_mallocz`,
`play_pos` set to -1 by attach (line 560), all drain and reopen state
clear, the stream open.  `device_format` is the zero-initialised struct,
never written by attach. -/
def scenario_attached_state : GPState :=
  { audio_buf := none, audio_buf_size := 0, audio_buf_index := 0,
    play_head := none, play_pos := -1, outstream := some scenario_outstream,
    eventq_aborted := false, abort_request := false,
    device_thread_inited := false, silence_frames_left := 0,
    request_device_reopen := false,
    device_format := { sample_rate := 0, channel_layout := 0, sample_fmt := .fmt_none },
    sink_playlist := some 1, playlist := some 1,
    dummy_device := false, dummy_soundio := false }

/-- The result state of one loop iteration. -/
def IterRes.state : IterRes → GPState
  | .stop s _ _ => s
  | .cont s _ _ _ => s

/-- The remaining source after one loop iteration. -/
def IterRes.source : IterRes → List PullResult
  | .stop _ src _ => src
  | .cont _ src _ _ => src

/-- The actions of one loop iteration. -/
def IterRes.trace : IterRes → List CbAction
  | .stop _ _ tr => tr
  | .cont _ _ tr _ => tr

/-- The atomic play-head mutations performed while the player is attached,
each executed under `play_head_mutex`: one iteration of the callback's
write loop, a purge notification, a flush notification. -/
inductive HeadOp where
  | iter (os : OutStream) (paused : Bool) (g : Nat) (req : Nat)
  | purge (item : Nat)
  | flush

/-- The state after one play-head mutation. -/
def applyHeadOp (op : HeadOp) (s : GPState) (src : List PullResult) : GPState :=
  match op with
  | .iter os paused g req => (cb_iter os paused g req s src).state
  | .purge it => (sink_purge s it).1
  | .flush => sink_flush s

/-- Play-head invariant of claim C8: the position is -1 only while no item
is tracked, and a loaded buffer implies a nonnegative position. -/
def headInv (s : GPState) : Prop :=
  (s.play_pos = -1 → s.play_head = none) ∧
  (s.audio_buf ≠ none → 0 ≤ s.play_pos)

/-- Source-ordering hypothesis: the next pulled buffer starts at a
nonnegative position, and a buffer of the currently tracked item does not
start before the current play position (decoded buffers of one item
arrive in stream order). -/
def srcOrdered (s : GPState) (src : List PullResult) : Prop :=
  ∀ b rest, src = PullResult.bufYes b :: rest →
    0 ≤ b.pos ∧ (s.play_head = some b.item → s.play_pos ≤ b.pos)

/-- A zero-frame buffer owned by playlist item `it` in format `fmt`
(`frame_count = 0`, the edge case of claim C7). -/
def zero_frame_buffer (it : Nat) (fmt : GrooveAudioFormat) : GrooveBuffer :=
  { id := 1, format := fmt, frame_count := 0, pos := 0, item := it }

/-- A source yielding `n` zero-frame buffers of the same item. -/
def zero_frame_source (n : Nat) (it : Nat) (fmt : GrooveAudioFormat) :
    List PullResult :=
  List.replicate n (PullResult.bufYes (zero_frame_buffer it fmt))

/-! Theorems settling the claims. -/

theorem silenceTotal_append (a b : List CbAction) :
    silenceTotal (a ++ b) = silenceTotal a + silenceTotal b := by
  induction a with
  | nil => simp [silenceTotal]
  | cons x xs ih => cases x <;> simp [silenceTotal, ih, Nat.add_assoc]

/-- C7 evidence: a zero-frame buffer is not treated like a missing buffer.
Starting from any steady playback state due for a refill (in default,
non-exact-format mode, playlist playing) and a source of `n` zero-frame
buffers, a single callback invocation granted `n` positive write slots
writes no silence at all, consumes the entire source, and the write loop
never reaches a `break` (`done = false`): with an endless zero-frame
source the invocation loop spins forever without filling the granted
slots. -/
theorem spec_C7 (it : Nat) (fmt : GrooveAudioFormat) (os : OutStream)
    (g : Nat) (hg : 0 < g) :
    ∀ (n : Nat) (s : GPState) (req : Nat), 0 < req →
      s.request_device_reopen = false → s.silence_frames_left ≤ 0 →
      s.audio_buf_size ≤ s.audio_buf_index → s.device_thread_inited = false →
      (cb_loop os false (List.replicate n g) req s (zero_frame_source n it fmt)).done
          = false ∧
      silenceTotal (cb_loop os false (List.replicate n g) req s
        (zero_frame_source n it fmt)).tr = 0 ∧
      (cb_loop os false (List.replicate n g) req s (zero_frame_source n it fmt)).src
          = [] := by
  intro n
  induction n with
  | zero =>
      intro s req _ _ _ _ _
      simp [cb_loop, zero_frame_source, silenceTotal]
  | succ n ih =>
      intro s req hreq hro hsil hsz hdev
      have h1 : decide (0 < s.silence_frames_left) = false := by
        simp only [decide_eq_false_iff_not]; omega
      have h2 : decide (s.audio_buf_size ≤ s.audio_buf_index) = true := by
        simp [hsz]
      have hwfc : ¬ (min g req = 0) := by omega
      have hreq0 : ¬ (req - 0 = 0) := by omega
      simp only [zero_frame_source, List.replicate_succ]
      rw [cb_loop]
      rw [cb_iter]
      simp only [if_neg hwfc, refillCond, hro, h1, h2, Bool.not_false, Bool.not_true,
        Bool.and_true, Bool.and_false, Bool.true_and, Bool.false_and, Bool.and_self,
        if_true, Bool.or_false, Bool.or_true]
      simp only [cb_refill, sink_buffer_get, zero_frame_buffer, hdev, Bool.false_and,
        Bool.false_eq_true, if_false, reduceIte]
      simp only [cb_stage2, hro, Option.isNone_some, Bool.or_false, Bool.or_self,
        Bool.false_eq_true, if_false, reduceIte, Nat.sub_zero, Nat.sub_self, Nat.zero_min,
        Nat.min_zero, Nat.add_zero, Nat.zero_add, Nat.cast_zero, zero_div, add_zero,
        if_neg hreq0]
      have hreqne : ¬ req = 0 := by omega
      simp only [if_neg hreqne]
      obtain ⟨hd, ht, hs⟩ := ih { s with
        audio_buf := some (zero_frame_buffer it fmt), audio_buf_size := 0,
        audio_buf_index := 0, play_head := some it, play_pos := 0,
        device_thread_inited := false,
        request_device_reopen := false } req hreq rfl hsil le_rfl rfl
      simp only [zero_frame_source, zero_frame_buffer] at hd ht hs
      refine ⟨hd, ?_, hs⟩
      rw [silenceTotal_append, ht]
      by_cases hph : s.play_head = some it <;> simp [hph, silenceTotal]

/-- C7 witness: two zero-frame buffers of item 7, two granted slots of 4
frames against 8 requested frames, from the freshly attached scenario
state: no silence is written, the source is drained, the loop never
completes. -/
theorem spec_C7_witness :
    (cb_loop scenario_outstream false (List.replicate 2 4) 8
        scenario_attached_state (zero_frame_source 2 7 fmt_44100_stereo_s16)).done
      = false ∧
    silenceTotal (cb_loop scenario_outstream false (List.replicate 2 4) 8
        scenario_attached_state (zero_frame_source 2 7 fmt_44100_stereo_s16)).tr = 0 ∧
    (cb_loop scenario_outstream false (List.replicate 2 4) 8
        scenario_attached_state (zero_frame_source 2 7 fmt_44100_stereo_s16)).src
      = [] :=
  spec_C7 7 fmt_44100_stereo_s16 scenario_outstream 4 (by decide) 2
    scenario_attached_state 8 (by decide) rfl (by decide) (by decide) rfl

/-- C3: in the scenario where the player is attached with target format
44100 Hz / stereo / signed-16 and the source yields exactly one matching
buffer of 1024 frames followed by end-of-stream, the callback writes
exactly 1024 non-silence frames, emits exactly one NowPlaying event at
buffer start, exactly one NowPlaying event at end-of-stream, and the play
head ends at item none, position -1. -/
theorem spec_C3 :
    (audio_callback scenario_outstream false [2048, 2048] 2048
        scenario_attached_state [PullResult.bufYes scenario_buffer]).tr =
      [CbAction.evt .nowplaying, CbAction.writeData 1 0 1024,
       CbAction.evt .nowplaying, CbAction.writeSilence 1024] ∧
    dataTotal (audio_callback scenario_outstream false [2048, 2048] 2048
        scenario_attached_state [PullResult.bufYes scenario_buffer]).tr = 1024 ∧
    (audio_callback scenario_outstream false [2048, 2048] 2048
        scenario_attached_state [PullResult.bufYes scenario_buffer]).s.play_head = none ∧
    (audio_callback scenario_outstream false [2048, 2048] 2048
        scenario_attached_state [PullResult.bufYes scenario_buffer]).s.play_pos = -1 := by
  decide

/-- C10: a purge notification for an item other than the tracked play-head
item leaves the whole player state unchanged and emits no event; a purge
of the tracked item clears the play head, releases the buffer and emits
NowPlaying. -/
theorem spec_C10 (s : GPState) (item : Nat) :
    (s.play_head ≠ some item → sink_purge s item = (s, [])) ∧
    (s.play_head = some item →
      sink_purge s item =
        ({ s with play_head := none, play_pos := -1, audio_buf := none,
                  audio_buf_index := 0, audio_buf_size := 0 },
         [CbAction.evt .nowplaying])) := by
  constructor <;> intro h <;> simp [sink_purge, h]

/-- C10 witness: the purge dichotomy evaluated at the scenario state (play
head none, so item 7 is untracked) and at the same state tracking
item 7. -/
theorem spec_C10_witness :
    sink_purge scenario_attached_state 7 = (scenario_attached_state, []) ∧
    sink_purge { scenario_attached_state with play_head := some 7 } 7 =
      ({ scenario_attached_state with play_head := none, play_pos := -1,
                                      audio_buf := none, audio_buf_index := 0,
                                      audio_buf_size := 0 },
       [CbAction.evt .nowplaying]) := by
  refine ⟨(spec_C10 scenario_attached_state 7).1 (by decide), ?_⟩
  have h := (spec_C10 { scenario_attached_state with play_head := some 7 } 7).2 rfl
  simpa using h

/-- C9: detach always returns success, and calling detach on an
already-detached player changes no state, performs no blocking join of
the watchdog thread, and returns success. -/
theorem spec_C9 (s : GPState) :
    (groove_player_detach s).2.2 = 0 ∧
    groove_player_detach (groove_player_detach s).1 =
      ((groove_player_detach s).1, false, 0) := by
  cases hd : s.device_thread_inited <;> cases hs : s.sink_playlist <;>
    simp [groove_player_detach, hd, hs]

/-- C6 counterexample: the claim states that the watchdog's stream close
and stream open run with the mutex released; replaying the lock and
unlock instructions of `device_thread_run` shows both execute with the
mutex held. -/
theorem spec_C6_counterexample :
    ¬ (mutexStatus (device_thread_reopen_trace true) .closeDevice = [false] ∧
       mutexStatus (device_thread_reopen_trace true) .openDevice = [false]) ∧
    mutexStatus (device_thread_reopen_trace true) .closeDevice = [true] ∧
    mutexStatus (device_thread_reopen_trace true) .openDevice = [true] := by
  decide

/-- C6 amended: in the watchdog's reopen iteration the flag clear, the
stream close, the device-format update and the stream open all run with
the mutex held; the mutex is released only before starting the new
stream and before emitting the outcome event. -/
theorem spec_C6 (openOk : Bool) :
    mutexStatus (device_thread_reopen_trace openOk) .clearReopenFlag = [true] ∧
    mutexStatus (device_thread_reopen_trace openOk) .closeDevice = [true] ∧
    mutexStatus (device_thread_reopen_trace openOk) .setDeviceFormat = [true] ∧
    mutexStatus (device_thread_reopen_trace openOk) .openDevice = [true] ∧
    mutexStatus (device_thread_reopen_trace openOk) .startStream =
      (if openOk then [false] else []) ∧
    mutexStatus (device_thread_reopen_trace openOk) .emitReopened =
      (if openOk then [false] else []) ∧
    mutexStatus (device_thread_reopen_trace openOk) .emitReopenError =
      (if openOk then [] else [false]) := by
  cases openOk <;> decide

/-- C4: when the callback pulls a buffer whose format differs from the
active device format while the watchdog is running, it arms the silence
drain with the currently open stream's buffer duration times the
currently open stream's sample rate - a quantity depending only on the
open stream, not on the pulled buffer - and marks waiting-for-silence
true. -/
theorem spec_C4 (os : OutStream) (s : GPState) (b : GrooveBuffer)
    (rest : List PullResult)
    (hinit : s.device_thread_inited = true)
    (hne : groove_audio_formats_equal b.format s.device_format = false) :
    (cb_refill os s (PullResult.bufYes b :: rest)).s.silence_frames_left =
      deviceBufferFrames os ∧
    (cb_refill os s (PullResult.bufYes b :: rest)).waiting = true ∧
    deviceBufferFrames os = (os.buffer_duration * (os.sample_rate : Rat)).floor := by
  simp [cb_refill, sink_buffer_get, hinit, hne, deviceBufferFrames]

/-- C4 witness: the drain armed for a 48000 Hz buffer arriving while the
44100 Hz scenario stream is open equals one full backend buffer of the
open stream, 0.1 s times 44100 = 4410 frames. -/
theorem spec_C4_witness :
    (cb_refill scenario_outstream
        { scenario_attached_state with device_thread_inited := true,
                                       device_format := fmt_44100_stereo_s16 }
        [PullResult.bufYes
          { id := 2, format := { sample_rate := 48000, channel_layout := 3, sample_fmt := .s16 },
            frame_count := 512, pos := 0, item := 9 }]).s.silence_frames_left =
      deviceBufferFrames scenario_outstream ∧
    deviceBufferFrames scenario_outstream = 4410 := by
  refine ⟨(spec_C4 scenario_outstream
    { scenario_attached_state with device_thread_inited := true,
                                   device_format := fmt_44100_stereo_s16 }
    { id := 2, format := { sample_rate := 48000, channel_layout := 3, sample_fmt := .s16 },
      frame_count := 512, pos := 0, item := 9 }
    [] rfl (by decide)).1, ?_⟩
  have h : scenario_outstream.buffer_duration *
      ((scenario_outstream.sample_rate : Nat) : ℚ) = (4410 : ℚ) := by
    norm_num [scenario_outstream]
  rw [deviceBufferFrames, h, Rat.floor_def']
  norm_num


theorem countSignals_append (a b : List CbAction) :
    countSignals (a ++ b) = countSignals a + countSignals b := by
  simp [countSignals, List.filter_append]

theorem silenceUpto_append_nosig (a b : List CbAction) (h : countSignals a = 0) :
    silenceUpto (a ++ b) = silenceTotal a + silenceUpto b := by
  induction a with
  | nil => simp [silenceTotal, silenceUpto]
  | cons x xs ih =>
      cases x <;> simp_all [countSignals, silenceUpto, silenceTotal, List.filter,
        Nat.add_assoc]

theorem silenceUpto_append_sig (a b : List CbAction) (h : 1 ≤ countSignals a) :
    silenceUpto (a ++ b) = silenceUpto a := by
  induction a with
  | nil => simp [countSignals] at h
  | cons x xs ih =>
      cases x <;> simp_all [countSignals, silenceUpto, List.filter]

theorem C2_loop_signaled (os : OutStream) (paused : Bool)
    (grants : List Nat) (req : Nat) (s : GPState) (src : List PullResult)
    (hsil : s.silence_frames_left ≤ 0) (hro : s.request_device_reopen = true) :
    (cb_loop os paused grants req s src).s = s ∧
    (cb_loop os paused grants req s src).src = src ∧
    countSignals (cb_loop os paused grants req s src).tr = 0 := by
  cases grants with
  | nil => simp [cb_loop, countSignals]
  | cons g gs =>
      rw [cb_loop, cb_iter]
      by_cases hw : min g req = 0
      · simp [hw, countSignals]
      · have h1 : decide (0 < s.silence_frames_left) = false := by
          simp only [decide_eq_false_iff_not]; omega
        simp [hw, refillCond, hro, h1, cb_stage2, countSignals]

theorem C2_loop_armed (os : OutStream) (paused : Bool)
    (grants : List Nat) (req : Nat) (s : GPState) (src : List PullResult)
    (harm : 0 < s.silence_frames_left) (hro : s.request_device_reopen = false) :
    (cb_loop os paused grants req s src).src = src ∧
    (((cb_loop os paused grants req s src).s = s ∧
        (cb_loop os paused grants req s src).tr = []) ∨
     (∃ w : Nat, 0 < w ∧
        (cb_loop os paused grants req s src).tr = [CbAction.writeSilence w] ∧
        (cb_loop os paused grants req s src).s =
          { s with silence_frames_left := s.silence_frames_left - (w : Int) } ∧
        0 < s.silence_frames_left - (w : Int)) ∨
     (∃ w : Nat, 0 < w ∧
        (cb_loop os paused grants req s src).tr =
          [CbAction.writeSilence w, CbAction.signalReopen] ∧
        (cb_loop os paused grants req s src).s =
          { s with silence_frames_left := s.silence_frames_left - (w : Int),
                   request_device_reopen := true } ∧
        s.silence_frames_left - (w : Int) ≤ 0)) := by
  cases grants with
  | nil => simp [cb_loop]
  | cons g gs =>
      rw [cb_loop, cb_iter]
      by_cases hw : min g req = 0
      · simp [hw]
      · have h1 : decide (0 < s.silence_frames_left) = true := by simp [harm]
        simp only [hw, if_neg hw, refillCond, hro, h1, Bool.not_true, Bool.not_false,
          Bool.true_and, Bool.false_and, Bool.and_false, Bool.and_true, Bool.false_eq_true,
          if_false, reduceIte, cb_stage2, Bool.true_or, Bool.or_true, Bool.false_or,
          Bool.or_false, if_true]
        by_cases hsl : s.silence_frames_left - ((min g req : Nat) : Int) ≤ 0
        · rw [if_pos hsl]
          exact ⟨rfl, Or.inr (Or.inr ⟨min g req, by omega, rfl, rfl, hsl⟩)⟩
        · rw [if_neg hsl]
          exact ⟨rfl, Or.inr (Or.inl ⟨min g req, by omega, rfl, rfl, by omega⟩)⟩

theorem C2_run_signaled (os : OutStream) :
    ∀ (ivs : List Invocation) (s : GPState) (src : List PullResult),
      s.silence_frames_left ≤ 0 → s.request_device_reopen = true →
      (player_run os ivs s src).s = s ∧
      countSignals (player_run os ivs s src).tr = 0 := by
  intro ivs
  induction ivs with
  | nil => intro s src _ _; exact ⟨rfl, rfl⟩
  | cons iv ivs ih =>
      intro s src hsil hro
      obtain ⟨hs1, hsrc1, hc1⟩ := C2_loop_signaled os iv.paused iv.grants iv.requested
        s src hsil hro
      rw [player_run]
      obtain ⟨hs2, hc2⟩ := ih (audio_callback os iv.paused iv.grants iv.requested s src).s
        (audio_callback os iv.paused iv.grants iv.requested s src).src
        (by rw [audio_callback] at *; rw [hs1]; exact hsil)
        (by rw [audio_callback] at *; rw [hs1]; exact hro)
      constructor
      · simp only [audio_callback] at *
        rw [hs2, hs1]
      · simp only [audio_callback] at *
        rw [countSignals_append, hc1, hc2]

theorem C2_run_armed (os : OutStream) :
    ∀ (ivs : List Invocation) (s : GPState) (src : List PullResult),
      0 < s.silence_frames_left → s.request_device_reopen = false →
      (countSignals (player_run os ivs s src).tr = 0 ∧
        0 < (player_run os ivs s src).s.silence_frames_left ∧
        (player_run os ivs s src).s.request_device_reopen = false ∧
        (player_run os ivs s src).s.silence_frames_left =
          s.silence_frames_left - (silenceTotal (player_run os ivs s src).tr : Int))
      ∨ (countSignals (player_run os ivs s src).tr = 1 ∧
         s.silence_frames_left ≤ (silenceUpto (player_run os ivs s src).tr : Int)) := by
  intro ivs
  induction ivs with
  | nil =>
      intro s src harm hro
      exact Or.inl ⟨rfl, harm, hro, by simp [player_run, silenceTotal]⟩
  | cons iv ivs ih =>
      intro s src harm hro
      obtain ⟨hsrc1, hshape⟩ := C2_loop_armed os iv.paused iv.grants iv.requested
        s src harm hro
      rw [player_run]
      simp only [audio_callback] at *
      set r1 := cb_loop os iv.paused iv.grants iv.requested s src with hr1
      rcases hshape with ⟨hs1, htr1⟩ | ⟨w, hw, htr1, hs1, hrem⟩ | ⟨w, hw, htr1, hs1, hrem⟩
      · -- nothing happened this invocation
        rcases ih r1.s r1.src (by rw [hs1]; exact harm) (by rw [hs1]; exact hro) with
          ⟨hc, hpos, hreq, hval⟩ | ⟨hc, hup⟩
        · refine Or.inl ⟨?_, hpos, hreq, ?_⟩
          · rw [countSignals_append, htr1, hc]; rfl
          · rw [htr1]; simpa [silenceTotal, hs1] using hval
        · refine Or.inr ⟨?_, ?_⟩
          · rw [countSignals_append, htr1, hc]; rfl
          · rw [htr1]; rw [hs1] at hup ⊢; simpa using hup
      · -- silence written, still armed
        rcases ih r1.s r1.src (by rw [hs1]; exact hrem) (by rw [hs1]; exact hro) with
          ⟨hc, hpos, hreq, hval⟩ | ⟨hc, hup⟩
        · refine Or.inl ⟨?_, hpos, hreq, ?_⟩
          · rw [countSignals_append, htr1, hc]; rfl
          · rw [htr1, hval, hs1]
            simp [silenceTotal, silenceTotal_append]
            omega
        · refine Or.inr ⟨?_, ?_⟩
          · rw [countSignals_append, htr1, hc]; rfl
          · rw [htr1, silenceUpto_append_nosig _ _ (by rfl)]
            rw [hs1] at hup ⊢
            simp at hup
            simp only [silenceTotal]
            push_cast at hup ⊢
            omega
      · -- signal fired this invocation
        obtain ⟨hs2, hc2⟩ := C2_run_signaled os ivs r1.s r1.src
          (by rw [hs1]; exact hrem) (by rw [hs1])
        refine Or.inr ⟨?_, ?_⟩
        · rw [countSignals_append, htr1, hc2]; rfl
        · rw [htr1, silenceUpto_append_sig _ _ (by rfl)]
          have hsu : silenceUpto [CbAction.writeSilence w, CbAction.signalReopen] = w := by
            simp [silenceUpto]
          rw [hsu]
          omega


/-- C2: from any state with the silence drain armed (`silence_frames_left
= S > 0`) and no reopen pending, over every sequence of callback
invocations: the watchdog is signalled at most once; it is signalled
exactly once as soon as the silence written reaches `S`; and when clients
observe the signal, at least `S` frames of silence were written up to and
including the write committed with it - so no fewer than
`silence_frames_remaining` silence frames precede the reopen request, and
the reopen signal is raised exactly once per transition. -/
theorem spec_C2 (os : OutStream) (ivs : List Invocation) (s : GPState)
    (src : List PullResult) (harm : 0 < s.silence_frames_left)
    (hro : s.request_device_reopen = false) :
    countSignals (player_run os ivs s src).tr ≤ 1 ∧
    (s.silence_frames_left ≤ (silenceTotal (player_run os ivs s src).tr : Int) →
      countSignals (player_run os ivs s src).tr = 1) ∧
    (1 ≤ countSignals (player_run os ivs s src).tr →
      s.silence_frames_left ≤ (silenceUpto (player_run os ivs s src).tr : Int)) := by
  rcases C2_run_armed os ivs s src harm hro with ⟨hc, hpos, _, hval⟩ | ⟨hc, hup⟩
  · exact ⟨by omega, by omega, by omega⟩
  · exact ⟨by omega, fun _ => hc, fun _ => hup⟩

/-- C2 witness: drain of 5 frames, two invocations granting 3 frames
each: one signal fires, with 6 silence frames written before it. -/
theorem spec_C2_witness :
    countSignals (player_run scenario_outstream
      [⟨false, [3], 3⟩, ⟨false, [3], 3⟩]
      { scenario_attached_state with silence_frames_left := 5 } []).tr ≤ 1 ∧
    ((5 : Int) ≤ (silenceTotal (player_run scenario_outstream
      [⟨false, [3], 3⟩, ⟨false, [3], 3⟩]
      { scenario_attached_state with silence_frames_left := 5 } []).tr : Int) →
      countSignals (player_run scenario_outstream
        [⟨false, [3], 3⟩, ⟨false, [3], 3⟩]
        { scenario_attached_state with silence_frames_left := 5 } []).tr = 1) ∧
    (1 ≤ countSignals (player_run scenario_outstream
        [⟨false, [3], 3⟩, ⟨false, [3], 3⟩]
        { scenario_attached_state with silence_frames_left := 5 } []).tr →
      (5 : Int) ≤ (silenceUpto (player_run scenario_outstream
        [⟨false, [3], 3⟩, ⟨false, [3], 3⟩]
        { scenario_attached_state with silence_frames_left := 5 } []).tr : Int)) :=
  spec_C2 scenario_outstream [⟨false, [3], 3⟩, ⟨false, [3], 3⟩]
    { scenario_attached_state with silence_frames_left := 5 } [] (by decide) rfl


/-- C5: when a device reopen fails, the watchdog's failure step emits
`DEVICE_REOPEN_ERROR` and leaves the stream closed (`outstream = none`);
and from any closed-stream configuration, as long as no successful
reopen occurs (no `DEVICEREOPENED` event in the execution), no step of
the two-thread system writes any sample data - the callback cannot run
without an open stream, so nothing but silence-free absence of output is
possible until a reopen succeeds. -/
theorem spec_C5 :
    (∀ (s : GPState) (src : List PullResult) (b : GrooveBuffer),
      s.request_device_reopen = true → s.audio_buf = some b →
      ∃ s' : GPState, SysStep s src [CbAction.evt .devicereopen_error] s' src ∧
        s'.outstream = none) ∧
    (∀ (s : GPState) (src : List PullResult) (trs : List (List CbAction))
        (s' : GPState) (src' : List PullResult),
      SysTrace s src trs s' src' → s.outstream = none →
      noReopenedEvt trs = true →
      noDataWrites trs = true ∧ s'.outstream = none) := by
  constructor
  · intro s src b h1 h2
    exact ⟨_, SysStep.reopenFail s src b h1 h2, rfl⟩
  · intro s src trs s' src' htr
    induction htr with
    | nil =>
        intro hnone _
        exact ⟨rfl, hnone⟩
    | cons hstep hrest ih =>
        intro hnone hnor
        cases hstep with
        | callback os paused grants req s src hopen =>
            rw [hnone] at hopen
            exact absurd hopen (by simp)
        | reopenOk s src b os' hreq hbuf =>
            simp [noReopenedEvt] at hnor
        | reopenFail s src b hreq hbuf =>
            simp only [noReopenedEvt, List.all_cons, Bool.and_eq_true] at hnor
            obtain ⟨hnd, hout⟩ := ih rfl hnor.2
            refine ⟨?_, hout⟩
            simp only [noDataWrites, List.all_cons, Bool.and_eq_true]
            exact ⟨by simp [CbAction.isData], by simpa [noDataWrites] using hnd⟩



theorem spec_C5_witness :
    (∃ s' : GPState,
      SysStep { scenario_attached_state with
                  outstream := none,
                  request_device_reopen := true,
                  audio_buf := some scenario_buffer } []
        [CbAction.evt .devicereopen_error] s' [] ∧ s'.outstream = none) ∧
    (noDataWrites [[CbAction.evt .devicereopen_error]] = true ∧
      ({ scenario_attached_state with
           outstream := none,
           request_device_reopen := false,
           device_format := scenario_buffer.format,
           audio_buf := some scenario_buffer } : GPState).outstream = none) := by
  refine ⟨(spec_C5).1 _ [] scenario_buffer rfl rfl, ?_⟩
  exact (spec_C5).2
    { scenario_attached_state with
        outstream := none, request_device_reopen := true,
        audio_buf := some scenario_buffer }
    [] [[CbAction.evt .devicereopen_error]] _ []
    (SysTrace.cons (SysStep.reopenFail _ [] scenario_buffer rfl rfl) (SysTrace.nil _ _))
    rfl (by decide)


theorem cb_stage2_play (os : OutStream) (paused : Bool) (wfc req : Nat)
    (s1 : GPState) (src1 : List PullResult) (tr1 : List CbAction) (waiting : Bool) :
    (cb_stage2 os paused wfc req s1 src1 tr1 waiting).state.play_head = s1.play_head ∧
    (cb_stage2 os paused wfc req s1 src1 tr1 waiting).state.audio_buf = s1.audio_buf ∧
    s1.play_pos ≤ (cb_stage2 os paused wfc req s1 src1 tr1 waiting).state.play_pos ∧
    ((cb_stage2 os paused wfc req s1 src1 tr1 waiting).state.play_pos = s1.play_pos ∨
      s1.audio_buf ≠ none) := by
  unfold cb_stage2
  dsimp only
  split
  · split
    · split <;> simp [IterRes.state]
    · simp [IterRes.state]
  · split
    next b heq =>
      split <;> simp [IterRes.state, heq] <;>
        exact div_nonneg (le_min (Nat.cast_nonneg _) (Nat.cast_nonneg _))
          (Nat.cast_nonneg _)
    next => simp [IterRes.state]

theorem cb_refill_play (os : OutStream) (s : GPState) (src : List PullResult) :
    ((cb_refill os s src).s.play_head = none ∧ (cb_refill os s src).s.play_pos = -1 ∧
      (cb_refill os s src).s.audio_buf = none) ∨
    (∃ b rest, src = PullResult.bufYes b :: rest ∧
      (cb_refill os s src).s.play_head = some b.item ∧
      (cb_refill os s src).s.play_pos = b.pos ∧
      (cb_refill os s src).s.audio_buf = some b) := by
  cases src with
  | nil => left; simp [cb_refill, sink_buffer_get]
  | cons r rest =>
      cases r with
      | bufEnd => left; simp [cb_refill, sink_buffer_get]
      | bufYes b =>
          right
          refine ⟨b, rest, rfl, ?_⟩
          simp only [cb_refill, sink_buffer_get]
          split <;> simp



/-- C8 amended: for the operations that mutate the play head under the
mutex while the player stays attached - a callback write-loop iteration,
a purge, a flush - whenever `current_item` becomes none the position is
set to -1 by the same atomic operation; each such operation preserves the
invariant that position -1 occurs only with no tracked item (assuming
pulled buffers carry nonnegative positions); and the position is
monotonically non-decreasing across any such operation that keeps the
same item playing (assuming same-item buffers arrive in stream order).
The claim as frozen also covers attach/detach, where it fails; see the
counterexample. -/
theorem spec_C8 (op : HeadOp) (s : GPState) (src : List PullResult)
    (hsrc : srcOrdered s src) :
    ((applyHeadOp op s src).play_head = none → s.play_head ≠ none →
        (applyHeadOp op s src).play_pos = -1) ∧
    (headInv s → headInv (applyHeadOp op s src)) ∧
    (∀ i : Nat, (applyHeadOp op s src).play_head = some i → s.play_head = some i →
        s.play_pos ≤ (applyHeadOp op s src).play_pos) := by
  cases op with
  | purge it =>
      by_cases h : s.play_head = some it
      · simp [applyHeadOp, sink_purge, h, headInv]
      · simp only [applyHeadOp, sink_purge, if_neg h]
        exact ⟨fun h1 h2 => absurd h1 h2, id, fun i _ _ => le_refl _⟩
  | flush =>
      simp [applyHeadOp, sink_flush, headInv]
  | iter os paused g req =>
      simp only [applyHeadOp, cb_iter]
      by_cases hw : min g req = 0
      · rw [if_pos hw]
        exact ⟨fun h1 h2 => absurd h1 h2, id, fun i _ _ => le_refl _⟩
      · rw [if_neg hw]
        by_cases hrc : refillCond s paused = true
        · rw [if_pos hrc]
          obtain ⟨hh, hab, hmono, hdisj⟩ := cb_stage2_play os paused (min g req) req
            (cb_refill os s src).s (cb_refill os s src).src (cb_refill os s src).tr
            (cb_refill os s src).waiting
          rcases cb_refill_play os s src with ⟨he1, he2, he3⟩ |
            ⟨b, rest, hsrceq, hy1, hy2, hy3⟩
          · refine ⟨fun _ _ => ?_, fun _ => ⟨fun _ => hh.trans he1, fun hb => ?_⟩,
              fun i h1 _ => ?_⟩
            · rcases hdisj with hp | hab2
              · rw [hp, he2]
              · exact absurd he3 (by simpa using hab2)
            · exact absurd (hab.trans he3) hb
            · rw [hh, he1] at h1; exact absurd h1 (by simp)
          · obtain ⟨hb0, hbord⟩ := hsrc b rest hsrceq
            have hpos' : b.pos ≤ (cb_stage2 os paused (min g req) req
                (cb_refill os s src).s (cb_refill os s src).src (cb_refill os s src).tr
                (cb_refill os s src).waiting).state.play_pos := by
              rw [← hy2]; exact hmono
            refine ⟨fun h1 _ => ?_, fun _ => ⟨fun hp => ?_, fun _ => ?_⟩,
              fun i h1 h2 => ?_⟩
            · rw [hh, hy1] at h1; exact absurd h1 (by simp)
            · exfalso
              rw [hp] at hpos'
              have : (0 : Rat) ≤ -1 := le_trans hb0 hpos'
              norm_num at this
            · exact le_trans hb0 hpos'
            · rw [hh, hy1] at h1
              have hbi : b.item = i := by simpa using h1
              have := hbord (by rw [hbi]; exact h2)
              calc s.play_pos ≤ b.pos := this
                _ ≤ _ := hpos'
        · rw [if_neg hrc]
          obtain ⟨hh, hab, hmono, hdisj⟩ := cb_stage2_play os paused (min g req) req
            s src [] (decide (0 < s.silence_frames_left))
          refine ⟨fun h1 h2 => absurd (hh.symm.trans h1) h2, fun hi => ⟨fun hp => ?_, fun hb => ?_⟩,
            fun i h1 h2 => hmono⟩
          · rcases hdisj with hpe | habn
            · rw [hh]; exact hi.1 (hpe.symm.trans hp)
            · exfalso
              have h0 : (0 : Rat) ≤ s.play_pos := hi.2 habn
              have := le_trans h0 hmono
              rw [hp] at this
              norm_num at this
          · have habn : s.audio_buf ≠ none := by rw [← hab]; exact hb
            exact le_trans (hi.2 habn) hmono



/-- C8 counterexample: the claim, which covers attach/detach among the
mutating operations, is false there: detach does not touch the play
head, and attach (line 560) sets `play_pos = -1` without clearing
`play_head`, so after detach and re-attach of a player that was tracking
item 7 at position 5, the position is -1 while the current item is still
item 7 - refuting "position_seconds equals -1 only while current_item is
none". -/
theorem spec_C8_counterexample :
    (groove_player_attach scenario_outstream false 1
        (groove_player_detach { scenario_attached_state with
          play_head := some 7, play_pos := 5 }).1).1.play_pos = -1 ∧
    (groove_player_attach scenario_outstream false 1
        (groove_player_detach { scenario_attached_state with
          play_head := some 7, play_pos := 5 }).1).1.play_head = some 7 := by
  decide

/-- C8 witness: the amended statement applied to a flush of a player
tracking item 7 at position 5. -/
theorem spec_C8_witness :
    ((applyHeadOp .flush { scenario_attached_state with
        play_head := some 7, play_pos := 5 } []).play_head = none →
      ({ scenario_attached_state with play_head := some 7, play_pos := 5 }
          : GPState).play_head ≠ none →
      (applyHeadOp .flush { scenario_attached_state with
        play_head := some 7, play_pos := 5 } []).play_pos = -1) ∧
    (headInv { scenario_attached_state with play_head := some 7, play_pos := 5 } →
      headInv (applyHeadOp .flush { scenario_attached_state with
        play_head := some 7, play_pos := 5 } [])) ∧
    (∀ i : Nat, (applyHeadOp .flush { scenario_attached_state with
        play_head := some 7, play_pos := 5 } []).play_head = some i →
      ({ scenario_attached_state with play_head := some 7, play_pos := 5 }
          : GPState).play_head = some i →
      ({ scenario_attached_state with play_head := some 7, play_pos := 5 }
          : GPState).play_pos ≤ (applyHeadOp .flush { scenario_attached_state with
        play_head := some 7, play_pos := 5 } []).play_pos) :=
  spec_C8 .flush _ [] (fun _ _ h => nomatch h)


theorem dataWritesFor_append (bid : Nat) (a c : List CbAction) :
    dataWritesFor bid (a ++ c) = dataWritesFor bid a ++ dataWritesFor bid c := by
  induction a with
  | nil => rfl
  | cons x xs ih =>
      cases x with
      | writeData b0 st n =>
          by_cases hb : b0 = bid <;> simp [dataWritesFor, hb, ih]
      | evt e => simp [dataWritesFor, ih]
      | writeSilence n => simp [dataWritesFor, ih]
      | signalReopen => simp [dataWritesFor, ih]

theorem sumLens_append (a c : List (Nat × Nat)) :
    sumLens (a ++ c) = sumLens a + sumLens c := by
  simp [sumLens]

theorem chainFrom_append (i : Nat) (a c : List (Nat × Nat))
    (ha : chainFrom i a = true) (hc : chainFrom (i + sumLens a) c = true) :
    chainFrom i (a ++ c) = true := by
  induction a generalizing i with
  | nil => simpa [sumLens] using hc
  | cons p ps ih =>
      obtain ⟨st, n⟩ := p
      simp only [chainFrom, Bool.and_eq_true, decide_eq_true_eq, List.cons_append] at ha ⊢
      refine ⟨ha.1, ih (i + n) ha.2 ?_⟩
      have : i + n + sumLens ps = i + sumLens ((st, n) :: ps) := by
        simp [sumLens]; omega
      rw [this]
      exact hc

theorem cb_refill_gone (os : OutStream) (s : GPState) (src : List PullResult)
    (bid : Nat) (hf : idFresh bid src) :
    bufGone (cb_refill os s src).s bid ∧ idFresh bid (cb_refill os s src).src ∧
    dataWritesFor bid (cb_refill os s src).tr = [] := by
  cases src with
  | nil =>
      refine ⟨?_, ?_, rfl⟩
      · intro b' hb'
        simp [cb_refill, sink_buffer_get] at hb'
      · intro b hb
        simp [cb_refill, sink_buffer_get] at hb
  | cons r rest =>
      have hrest : idFresh bid rest := fun b hb => hf b (List.mem_cons_of_mem _ hb)
      cases r with
      | bufEnd =>
          refine ⟨?_, ?_, rfl⟩
          · intro b' hb'
            simp [cb_refill, sink_buffer_get] at hb'
          · simpa [cb_refill, sink_buffer_get] using hrest
      | bufYes b2 =>
          have hb2 : b2.id ≠ bid := hf b2 (List.mem_cons_self _ _)
          simp only [cb_refill, sink_buffer_get]
          split
          · refine ⟨?_, hrest, ?_⟩
            · intro b' hb'
              simp at hb'
              rw [← hb']
              exact hb2
            · split <;> rfl
          · refine ⟨?_, hrest, ?_⟩
            · intro b' hb'
              simp at hb'
              rw [← hb']
              exact hb2
            · split <;> rfl

theorem cb_stage2_gone (os : OutStream) (paused : Bool) (wfc req : Nat)
    (s1 : GPState) (src1 : List PullResult) (tr1 : List CbAction) (waiting : Bool)
    (bid : Nat) (hg : bufGone s1 bid) (ht : dataWritesFor bid tr1 = []) :
    bufGone (cb_stage2 os paused wfc req s1 src1 tr1 waiting).state bid ∧
    (cb_stage2 os paused wfc req s1 src1 tr1 waiting).source = src1 ∧
    dataWritesFor bid (cb_stage2 os paused wfc req s1 src1 tr1 waiting).trace = [] := by
  unfold cb_stage2
  dsimp only
  split
  · split
    · split <;>
        exact ⟨hg, rfl, by simp only [IterRes.trace]; rw [dataWritesFor_append, ht]; rfl⟩
    · exact ⟨hg, rfl, by simp only [IterRes.trace]; rw [dataWritesFor_append, ht]; rfl⟩
  · split
    next b2 heq =>
        have hb2 : b2.id ≠ bid := hg b2 heq
        have htr : dataWritesFor bid (tr1 ++ [CbAction.writeData b2.id s1.audio_buf_index
            (min (s1.audio_buf_size - s1.audio_buf_index) wfc)]) = [] := by
          rw [dataWritesFor_append, ht]
          simp [dataWritesFor, hb2]
        split <;> exact ⟨hg, rfl, htr⟩
    next => exact ⟨hg, rfl, ht⟩

theorem cb_iter_gone (os : OutStream) (paused : Bool) (g req : Nat)
    (s : GPState) (src : List PullResult) (bid : Nat)
    (hg : bufGone s bid) (hf : idFresh bid src) :
    bufGone (cb_iter os paused g req s src).state bid ∧
    idFresh bid (cb_iter os paused g req s src).source ∧
    dataWritesFor bid (cb_iter os paused g req s src).trace = [] := by
  unfold cb_iter
  dsimp only
  split
  · exact ⟨hg, hf, rfl⟩
  · split
    · obtain ⟨hg1, hf1, ht1⟩ := cb_refill_gone os s src bid hf
      obtain ⟨hg2, hsrc2, ht2⟩ := cb_stage2_gone os paused (min g req) req
        (cb_refill os s src).s (cb_refill os s src).src (cb_refill os s src).tr
        (cb_refill os s src).waiting bid hg1 ht1
      exact ⟨hg2, by rw [hsrc2]; exact hf1, ht2⟩
    · obtain ⟨hg2, hsrc2, ht2⟩ := cb_stage2_gone os paused (min g req) req s src []
        (decide (0 < s.silence_frames_left)) bid hg rfl
      exact ⟨hg2, by rw [hsrc2]; exact hf, ht2⟩

theorem cb_loop_gone (os : OutStream) (paused : Bool) :
    ∀ (grants : List Nat) (req : Nat) (s : GPState) (src : List PullResult) (bid : Nat),
      bufGone s bid → idFresh bid src →
      bufGone (cb_loop os paused grants req s src).s bid ∧
      idFresh bid (cb_loop os paused grants req s src).src ∧
      dataWritesFor bid (cb_loop os paused grants req s src).tr = [] := by
  intro grants
  induction grants with
  | nil => intro req s src bid hg hf; exact ⟨hg, hf, rfl⟩
  | cons g gs ih =>
      intro req s src bid hg hf
      rw [cb_loop]
      obtain ⟨hg1, hf1, ht1⟩ := cb_iter_gone os paused g req s src bid hg hf
      cases hit : cb_iter os paused g req s src with
      | stop s' src' tr =>
          simp only [hit, IterRes.state, IterRes.source, IterRes.trace] at hg1 hf1 ht1 ⊢
          exact ⟨hg1, hf1, ht1⟩
      | cont s' src' tr req' =>
          simp only [hit, IterRes.state, IterRes.source, IterRes.trace] at hg1 hf1 ht1 ⊢
          obtain ⟨hg2, hf2, ht2⟩ := ih req' s' src' bid hg1 hf1
          exact ⟨hg2, hf2, by rw [dataWritesFor_append, ht1, ht2]; rfl⟩

theorem player_run_gone (os : OutStream) :
    ∀ (ivs : List Invocation) (s : GPState) (src : List PullResult) (bid : Nat),
      bufGone s bid → idFresh bid src →
      bufGone (player_run os ivs s src).s bid ∧
      idFresh bid (player_run os ivs s src).src ∧
      dataWritesFor bid (player_run os ivs s src).tr = [] := by
  intro ivs
  induction ivs with
  | nil => intro s src bid hg hf; exact ⟨hg, hf, rfl⟩
  | cons iv ivs ih =>
      intro s src bid hg hf
      rw [player_run]
      dsimp only
      obtain ⟨hg1, hf1, ht1⟩ := cb_loop_gone os iv.paused iv.grants iv.requested s src bid hg hf
      obtain ⟨hg2, hf2, ht2⟩ := ih (audio_callback os iv.paused iv.grants iv.requested s src).s
        (audio_callback os iv.paused iv.grants iv.requested s src).src bid hg1 hf1
      exact ⟨hg2, hf2, by rw [dataWritesFor_append]; rw [audio_callback] at *; rw [ht1, ht2]; rfl⟩

theorem cb_stage2_holds (os : OutStream) (paused : Bool) (wfc req : Nat)
    (s : GPState) (src1 : List PullResult) (tr1 : List CbAction)
    (b : GrooveBuffer) (j : Nat)
    (hab : s.audio_buf = some b) (hsz : s.audio_buf_size = b.frame_count)
    (hix : s.audio_buf_index = j) (hsil : s.silence_frames_left ≤ 0)
    (hro : s.request_device_reopen = false) (hj : j ≤ b.frame_count)
    (ht1 : dataWritesFor b.id tr1 = []) :
    (cb_stage2 os paused wfc req s src1 tr1 false).source = src1 ∧
    ∃ j', holdsBuf (cb_stage2 os paused wfc req s src1 tr1 false).state b j' ∧
      j' ≤ b.frame_count ∧
      chainFrom j (dataWritesFor b.id
        (cb_stage2 os paused wfc req s src1 tr1 false).trace) = true ∧
      j' = j + sumLens (dataWritesFor b.id
        (cb_stage2 os paused wfc req s src1 tr1 false).trace) := by
  have hws : dataWritesFor b.id (tr1 ++ [CbAction.writeSilence wfc]) = [] := by
    rw [dataWritesFor_append, ht1]; rfl
  have hwd : dataWritesFor b.id
      (tr1 ++ [CbAction.writeData b.id j (min (b.frame_count - j) wfc)]) =
      [(j, min (b.frame_count - j) wfc)] := by
    rw [dataWritesFor_append, ht1]
    simp [dataWritesFor]
  unfold cb_stage2
  rw [hro, hab, hsz, hix]
  dsimp only
  simp only [Option.isNone_some, Bool.false_or, Bool.or_false, Bool.false_eq_true,
    if_false]
  split
  · -- paused: silence fill, state unchanged
    refine ⟨rfl, j, ⟨hab, hsz, hix, hsil, hro⟩, hj, ?_, ?_⟩
    · simp only [IterRes.trace]
      rw [hws]
      rfl
    · simp only [IterRes.trace]
      rw [hws]
      simp [sumLens]
  · -- playback: copy min(frames left, granted) frames
    split
    · refine ⟨rfl, j + min (b.frame_count - j) wfc, ⟨rfl, rfl, rfl, hsil, rfl⟩,
        by omega, ?_, ?_⟩
      · simp only [IterRes.trace]
        rw [hwd]
        simp [chainFrom]
      · simp only [IterRes.trace]
        rw [hwd]
        simp [sumLens]
    · refine ⟨rfl, j + min (b.frame_count - j) wfc, ⟨rfl, rfl, rfl, hsil, rfl⟩,
        by omega, ?_, ?_⟩
      · simp only [IterRes.trace]
        rw [hwd]
        simp [chainFrom]
      · simp only [IterRes.trace]
        rw [hwd]
        simp [sumLens]

theorem cb_iter_main (os : OutStream) (paused : Bool) (g req : Nat)
    (s : GPState) (src : List PullResult) (b : GrooveBuffer) (j : Nat)
    (hb : holdsBuf s b j) (hj : j ≤ b.frame_count) (hf : idFresh b.id src) :
    idFresh b.id (cb_iter os paused g req s src).source ∧
    chainFrom j (dataWritesFor b.id (cb_iter os paused g req s src).trace) = true ∧
    ((∃ j', holdsBuf (cb_iter os paused g req s src).state b j' ∧
        j' ≤ b.frame_count ∧
        j' = j + sumLens (dataWritesFor b.id (cb_iter os paused g req s src).trace))
     ∨ (bufGone (cb_iter os paused g req s src).state b.id ∧
        sumLens (dataWritesFor b.id (cb_iter os paused g req s src).trace) =
          b.frame_count - j)) := by
  obtain ⟨hab, hsz, hix, hsil, hro⟩ := hb
  unfold cb_iter
  dsimp only
  split
  · exact ⟨hf, rfl, Or.inl ⟨j, ⟨hab, hsz, hix, hsil, hro⟩, hj,
      by simp [sumLens, dataWritesFor]⟩⟩
  · split
    next hrc =>
      have hj' : b.frame_count ≤ j := by
        simp only [refillCond, Bool.and_eq_true, decide_eq_true_eq] at hrc
        rw [← hsz, ← hix]
        exact hrc.2
      have hjeq : j = b.frame_count := le_antisymm hj hj'
      obtain ⟨hg1, hf1, ht1⟩ := cb_refill_gone os s src b.id hf
      obtain ⟨hg2, hsrc2, ht2⟩ := cb_stage2_gone os paused (min g req) req
        (cb_refill os s src).s (cb_refill os s src).src (cb_refill os s src).tr
        (cb_refill os s src).waiting b.id hg1 ht1
      refine ⟨by rw [hsrc2]; exact hf1, by rw [ht2]; rfl,
        Or.inr ⟨hg2, by rw [ht2, hjeq]; simp [sumLens]⟩⟩
    next hrc =>
      have hw : decide (0 < s.silence_frames_left) = false := by
        simp only [decide_eq_false_iff_not]; omega
      rw [hw]
      obtain ⟨hsrc2, j', hh, hle, hch, hsum⟩ := cb_stage2_holds os paused (min g req)
        req s src [] b j hab hsz hix hsil hro hj rfl
      exact ⟨by rw [hsrc2]; exact hf, hch, Or.inl ⟨j', hh, hle, hsum⟩⟩

theorem cb_loop_main (os : OutStream) (paused : Bool) :
    ∀ (grants : List Nat) (req : Nat) (s : GPState) (src : List PullResult)
      (b : GrooveBuffer) (j : Nat),
      holdsBuf s b j → j ≤ b.frame_count → idFresh b.id src →
      idFresh b.id (cb_loop os paused grants req s src).src ∧
      chainFrom j (dataWritesFor b.id (cb_loop os paused grants req s src).tr) = true ∧
      ((∃ j', holdsBuf (cb_loop os paused grants req s src).s b j' ∧
          j' ≤ b.frame_count ∧
          j' = j + sumLens (dataWritesFor b.id (cb_loop os paused grants req s src).tr))
       ∨ (bufGone (cb_loop os paused grants req s src).s b.id ∧
          sumLens (dataWritesFor b.id (cb_loop os paused grants req s src).tr) =
            b.frame_count - j)) := by
  intro grants
  induction grants with
  | nil =>
      intro req s src b j hb hj hf
      exact ⟨hf, rfl, Or.inl ⟨j, hb, hj, by simp [sumLens, dataWritesFor]⟩⟩
  | cons g gs ih =>
      intro req s src b j hb hj hf
      rw [cb_loop]
      obtain ⟨hf1, hch1, hdisj1⟩ := cb_iter_main os paused g req s src b j hb hj hf
      cases hit : cb_iter os paused g req s src with
      | stop s' src' tr =>
          simp only [hit, IterRes.state, IterRes.source, IterRes.trace]
            at hf1 hch1 hdisj1 ⊢
          exact ⟨hf1, hch1, hdisj1⟩
      | cont s' src' tr req' =>
          simp only [hit, IterRes.state, IterRes.source, IterRes.trace]
            at hf1 hch1 hdisj1 ⊢
          rcases hdisj1 with ⟨j1, hb1, hle1, hsum1⟩ | ⟨hg1, hsum1⟩
          · obtain ⟨hf2, hch2, hdisj2⟩ := ih req' s' src' b j1 hb1 hle1 hf1
            refine ⟨hf2, ?_, ?_⟩
            · rw [dataWritesFor_append]
              exact chainFrom_append j _ _ hch1 (by rw [← hsum1]; exact hch2)
            · rcases hdisj2 with ⟨j2, hb2, hle2, hsum2⟩ | ⟨hg2, hsum2⟩
              · exact Or.inl ⟨j2, hb2, hle2,
                  by rw [dataWritesFor_append, sumLens_append]; omega⟩
              · exact Or.inr ⟨hg2,
                  by rw [dataWritesFor_append, sumLens_append]; omega⟩
          · obtain ⟨hg2, hf2, ht2⟩ := cb_loop_gone os paused gs req' s' src' b.id hg1 hf1
            refine ⟨hf2, ?_, Or.inr ⟨hg2, ?_⟩⟩
            · rw [dataWritesFor_append, ht2]
              simpa using hch1
            · rw [dataWritesFor_append, ht2]
              simpa using hsum1

theorem player_run_main (os : OutStream) :
    ∀ (ivs : List Invocation) (s : GPState) (src : List PullResult)
      (b : GrooveBuffer) (j : Nat),
      holdsBuf s b j → j ≤ b.frame_count → idFresh b.id src →
      idFresh b.id (player_run os ivs s src).src ∧
      chainFrom j (dataWritesFor b.id (player_run os ivs s src).tr) = true ∧
      ((∃ j', holdsBuf (player_run os ivs s src).s b j' ∧
          j' ≤ b.frame_count ∧
          j' = j + sumLens (dataWritesFor b.id (player_run os ivs s src).tr))
       ∨ (bufGone (player_run os ivs s src).s b.id ∧
          sumLens (dataWritesFor b.id (player_run os ivs s src).tr) =
            b.frame_count - j)) := by
  intro ivs
  induction ivs with
  | nil =>
      intro s src b j hb hj hf
      exact ⟨hf, rfl, Or.inl ⟨j, hb, hj, by simp [sumLens, dataWritesFor]⟩⟩
  | cons iv ivs ih =>
      intro s src b j hb hj hf
      rw [player_run]
      dsimp only
      obtain ⟨hf1, hch1, hdisj1⟩ := cb_loop_main os iv.paused iv.grants iv.requested
        s src b j hb hj hf
      rw [show audio_callback os iv.paused iv.grants iv.requested s src =
        cb_loop os iv.paused iv.grants iv.requested s src from rfl]
      rcases hdisj1 with ⟨j1, hb1, hle1, hsum1⟩ | ⟨hg1, hsum1⟩
      · obtain ⟨hf2, hch2, hdisj2⟩ := ih (cb_loop os iv.paused iv.grants iv.requested s src).s
          (cb_loop os iv.paused iv.grants iv.requested s src).src b j1 hb1 hle1 hf1
        refine ⟨hf2, ?_, ?_⟩
        · rw [dataWritesFor_append]
          exact chainFrom_append j _ _ hch1 (by rw [← hsum1]; exact hch2)
        · rcases hdisj2 with ⟨j2, hb2, hle2, hsum2⟩ | ⟨hg2, hsum2⟩
          · exact Or.inl ⟨j2, hb2, hle2,
              by rw [dataWritesFor_append, sumLens_append]; omega⟩
          · exact Or.inr ⟨hg2,
              by rw [dataWritesFor_append, sumLens_append]; omega⟩
      · obtain ⟨hg2, hf2, ht2⟩ := player_run_gone os ivs
          (cb_loop os iv.paused iv.grants iv.requested s src).s
          (cb_loop os iv.paused iv.grants iv.requested s src).src b.id hg1 hf1
        refine ⟨hf2, ?_, Or.inr ⟨hg2, ?_⟩⟩
        · rw [dataWritesFor_append, ht2]
          simpa using hch1
        · rw [dataWritesFor_append, ht2]
          simpa using hsum1

/-- C1: over the lifetime of one audio buffer - from its acquisition at
cursor 0 through any sequence of callback invocations with arbitrary
granted write-slot sizes - and provided no format transition is pending
while it is consumed (no silence drain armed, no reopen requested) and
the source never hands back the same heap buffer, the data writes taken
from that buffer tile the interval starting at frame 0 contiguously (no
frame duplicated and none skipped), and: if the buffer is still held the
cursor equals the frames written so far (at most frame_count); if the
buffer has been released, the total frames written from it equals
exactly its frame_count. -/
theorem spec_C1 (os : OutStream) (ivs : List Invocation) (s : GPState)
    (src : List PullResult) (b : GrooveBuffer)
    (hab : s.audio_buf = some b) (hsz : s.audio_buf_size = b.frame_count)
    (hix : s.audio_buf_index = 0) (hsil : s.silence_frames_left ≤ 0)
    (hro : s.request_device_reopen = false) (hf : idFresh b.id src) :
    chainFrom 0 (dataWritesFor b.id (player_run os ivs s src).tr) = true ∧
    ((∃ j', holdsBuf (player_run os ivs s src).s b j' ∧ j' ≤ b.frame_count ∧
        j' = sumLens (dataWritesFor b.id (player_run os ivs s src).tr))
     ∨ (bufGone (player_run os ivs s src).s b.id ∧
        sumLens (dataWritesFor b.id (player_run os ivs s src).tr) = b.frame_count)) := by
  obtain ⟨hf', hch, hdisj⟩ := player_run_main os ivs s src b 0
    ⟨hab, hsz, hix, hsil, hro⟩ (Nat.zero_le _) hf
  refine ⟨hch, ?_⟩
  rcases hdisj with ⟨j', h1, h2, h3⟩ | ⟨h1, h2⟩
  · exact Or.inl ⟨j', h1, h2, by omega⟩
  · exact Or.inr ⟨h1, by omega⟩

/-- C1 witness: the 1024-frame scenario buffer played through one
invocation with two 2048-frame grants: the buffer's writes chain from 0
and, as the buffer is released at end of stream, sum to exactly 1024. -/
theorem spec_C1_witness :
    chainFrom 0 (dataWritesFor scenario_buffer.id
      (player_run scenario_outstream [⟨false, [2048, 2048], 2048⟩]
        { scenario_attached_state with audio_buf := some scenario_buffer,
                                       audio_buf_size := 1024,
                                       play_head := some 7, play_pos := 0 } []).tr)
      = true ∧
    ((∃ j', holdsBuf (player_run scenario_outstream [⟨false, [2048, 2048], 2048⟩]
        { scenario_attached_state with audio_buf := some scenario_buffer,
                                       audio_buf_size := 1024,
                                       play_head := some 7, play_pos := 0 } []).s
          scenario_buffer j' ∧
        j' ≤ scenario_buffer.frame_count ∧
        j' = sumLens (dataWritesFor scenario_buffer.id
          (player_run scenario_outstream [⟨false, [2048, 2048], 2048⟩]
            { scenario_attached_state with audio_buf := some scenario_buffer,
                                           audio_buf_size := 1024,
                                           play_head := some 7, play_pos := 0 } []).tr))
     ∨ (bufGone (player_run scenario_outstream [⟨false, [2048, 2048], 2048⟩]
          { scenario_attached_state with audio_buf := some scenario_buffer,
                                         audio_buf_size := 1024,
                                         play_head := some 7, play_pos := 0 } []).s
          scenario_buffer.id ∧
        sumLens (dataWritesFor scenario_buffer.id
          (player_run scenario_outstream [⟨false, [2048, 2048], 2048⟩]
            { scenario_attached_state with audio_buf := some scenario_buffer,
                                           audio_buf_size := 1024,
                                           play_head := some 7, play_pos := 0 } []).tr)
          = scenario_buffer.frame_count)) :=
  spec_C1 scenario_outstream [⟨false, [2048, 2048], 2048⟩]
    { scenario_attached_state with audio_buf := some scenario_buffer,
                                   audio_buf_size := 1024,
                                   play_head := some 7, play_pos := 0 } []
    scenario_buffer rfl rfl rfl (by decide) rfl
    (fun b hb => absurd hb (List.not_mem_nil _))

end GroovePlayer
